import Mathlib

/-!
Verification of the 2D scattering transform engine
(`kymatio/scattering2d/scattering2d.py`).

The development shallowly embeds `Scattering2D.__init__` / `build` /
`forward`.  The numeric tensor backend (`fft`, `cdgmm`, `Modulus`,
`SubsampleFourier`, `Pad`, `unpad`) is external to the transform core and is
represented by an abstract `Backend` structure; the filter bank generator
(`filter_bank`) and `compute_padding` are not part of the sources and are
modelled from the specification where noted.

The combinatorial layer below counts the cascade's admissible scale chains:
the nested loops of `forward` iterate over the `L·J` band-pass filters and
prune any path whose scale chain is not strictly increasing.
-/

namespace Scat2D


/-- The list of band-pass filter tags `(j, θ)` in iteration order.
Modelled from the spec: `filter_bank` is not under `src/`; §3 of the spec
fixes the filter set as `L*J` band-pass filters indexed by scale `j ∈ [0,J)`
and orientation `θ ∈ [0,L)`, ordered by scale ascending then orientation
(the order-1 channel ordering of §3). -/
def psiList (J L : ℕ) : List (ℕ × ℕ) :=
  (List.range J).flatMap fun j => (List.range L).map fun θ => (j, θ)

/-- Number of strictly increasing scale chains of length `k` whose entries lie
in the open-below interval `(a, J)`; written exactly as the guarded sums that
the nested cascade loops realize. -/
def cnt : ℕ → ℕ → ℕ → ℕ
  | 0, _, _ => 1
  | k + 1, a, J => ∑ j in Finset.range J, if a < j then cnt k j J else 0

/-!
Generic shapes of the nested cascade loops of `forward`.  `nest2 J L F`
is the order-2 double loop `for n1 in range(len(psi)): for n2 in
range(len(psi)): if j1 < j2: emit`, with the loop body abstracted as `F`;
`nest3` and `nest4` are the order-3 and order-4 loops, each nested inside
the strict-increase guard of the previous level, exactly as in the source.
-/

def nest2 {β : Type _} (J L : ℕ) (F : ℕ × ℕ → ℕ × ℕ → β) : List β :=
  (psiList J L).flatMap fun p1 =>
    (psiList J L).flatMap fun p2 =>
      if p1.1 < p2.1 then [F p1 p2] else []

def nest3 {β : Type _} (J L : ℕ) (F : ℕ × ℕ → ℕ × ℕ → ℕ × ℕ → β) : List β :=
  (psiList J L).flatMap fun p1 =>
    (psiList J L).flatMap fun p2 =>
      if p1.1 < p2.1 then
        (psiList J L).flatMap fun p3 =>
          if p2.1 < p3.1 then [F p1 p2 p3] else []
      else []

def nest4 {β : Type _} (J L : ℕ) (F : ℕ × ℕ → ℕ × ℕ → ℕ × ℕ → ℕ × ℕ → β) : List β :=
  (psiList J L).flatMap fun p1 =>
    (psiList J L).flatMap fun p2 =>
      if p1.1 < p2.1 then
        (psiList J L).flatMap fun p3 =>
          if p2.1 < p3.1 then
            (psiList J L).flatMap fun p4 =>
              if p3.1 < p4.1 then [F p1 p2 p3 p4] else []
          else []
      else []

/-!
Channel-count bookkeeping of `forward` (scattering2d.py lines 196-213).
Python `//` on the nonnegative quantities involved coincides with `ℕ`
division; for `J < k` the truncated products `J*(J-1)*...` vanish exactly as
the Python products do, because a zero factor occurs before any negative one.
-/

def order1_size (J L : ℕ) : ℕ := L * J

def order2_size (J L : ℕ) : ℕ := L ^ 2 * J * (J - 1) / 2

def order3_size (J L : ℕ) : ℕ := L ^ 3 * (J * (J - 1) * (J - 2)) / (3 * 2)

def order4_size (J L : ℕ) : ℕ := L ^ 4 * (J * (J - 1) * (J - 2) * (J - 3)) / (4 * 3 * 2)

/-- The allocated channel dimension of the output tensor `S`
(`output_size` in `forward`); `max_order` is an arbitrary Python int. -/
def output_size (J L : ℕ) (maxOrder : ℤ) : ℕ :=
  1 + order1_size J L
    + (if 2 ≤ maxOrder then order2_size J L else 0)
    + (if 3 ≤ maxOrder then order3_size J L else 0)
    + (if 4 ≤ maxOrder then order4_size J L else 0)

/-!
Data model: construction-time configuration and forward-pass inputs.
-/

/-- Modelled from the spec: `utils.compute_padding` is not under `src/`;
§3 of the spec fixes the padded dimensions as the smallest values that are
≥ the input size and multiples of `2^J`. -/
def compute_padding (M N J : ℕ) : ℕ × ℕ :=
  ((M + 2 ^ J - 1) / 2 ^ J * 2 ^ J, (N + 2 ^ J - 1) / 2 ^ J * 2 ^ J)

/-- State built by `Scattering2D.__init__` + `build`. -/
structure ScatteringConfig where
  J : ℕ
  L : ℕ
  maxOrder : ℤ
  M : ℕ
  N : ℕ
  prePad : Bool
  Mp : ℕ
  Np : ℕ
  deriving DecidableEq

/-- `build`: derives the padded dimensions from the unpadded shape. -/
def build (J : ℕ) (shape : ℕ × ℕ) (L : ℕ) (maxOrder : ℤ) (prePad : Bool) :
    ScatteringConfig :=
  { J := J, L := L, maxOrder := maxOrder, M := shape.1, N := shape.2,
    prePad := prePad,
    Mp := (compute_padding shape.1 shape.2 J).1,
    Np := (compute_padding shape.1 shape.2 J).2 }

/-- `Scattering2D.__init__`: raises unless `2^J ≤ shape[0]` and
`2^J ≤ shape[1]` (checked on the unpadded shape, before `build`). -/
def scattering2D_init (J : ℕ) (shape : ℕ × ℕ) (L : ℕ) (maxOrder : ℤ)
    (prePad : Bool) : Except String ScatteringConfig :=
  if 2 ^ J > shape.1 ∨ 2 ^ J > shape.2 then
    .error "The smallest dimension should be larger than 2^J"
  else
    .ok (build J shape L maxOrder prePad)

def exceptOk {ε β : Type _} : Except ε β → Bool
  | .ok _ => true
  | .error _ => false

/-- Dtype tag of a torch tensor (the transform itself never inspects it). -/
inductive Dtype where
  | float32 | float64 | int32 | int64 | boolean
  deriving DecidableEq

/-- Forward-pass input: flags inspected by the input validation of
`forward`, plus the underlying signal data. -/
structure InputTensor (α : Type _) where
  isTensor : Bool
  dtype : Dtype
  shape : List ℕ
  contiguous : Bool
  data : α

/-- One distinct error per malformation class raised by `forward`
(`TypeError`, and the three/four `RuntimeError`s). -/
inductive FwdError where
  | typeErr | rankErr | contigErr | sizeUnpadded | sizePadded
  deriving DecidableEq

/-- External numeric tensor engine (`backend`): the Fourier primitive and
padding/cropping, out of core scope and treated as opaque operations on an
abstract signal type. -/
structure Backend (α : Type _) where
  mkPad : List ℕ → List ℕ → Bool → α → α
  fft : α → α
  ifft : α → α
  fftC2R : α → α
  cdgmm : α → α → α
  subsample : α → ℕ → α
  modulus : α → α
  unpad : α → α

/-- Modelled from the spec: `filter_bank` is not under `src/`.  Per §4.1 the
`J` low-pass filters depend only on the padded dimensions and the scale
(no orientation, hence no dependence on `L`), stored at every resolution;
the band-pass filter for `(j, θ)` depends on the padded dimensions, the
angular grid (hence `L`), its scale, orientation, and stored resolution. -/
structure FilterGen (α : Type _) where
  phi : ℕ → ℕ → ℕ → ℕ → α
  psi : ℕ → ℕ → ℕ → ℕ → ℕ → ℕ → α

/-- Padding amounts of line 105 of the source:
`[(M_padded - M) // 2, (M_padded - M + 1) // 2, (N_padded - N) // 2,
(N_padded - N + 1) // 2]`. -/
def padAmounts (M N Mp Np : ℕ) : List ℕ :=
  [(Mp - M) / 2, (Mp - M + 1) / 2, (Np - N) / 2, (Np - N + 1) / 2]

/-- `U_0_c = fft(pad(input))` (lines 221-222). -/
def U0c {α : Type _} (B : Backend α) (M N Mp Np : ℕ) (pp : Bool) (x : α) : α :=
  B.fft (B.mkPad (padAmounts M N Mp Np) [M, N] pp x)

/-- Terminal low-pass step of every cascade path (lines 225-229, 246-248,
260-263, 276-279, 293-296): multiply by `phi[j]`, subsample by the
remaining `2^(J-j)`, inverse FFT to the reals, crop. -/
def outLow {α : Type _} (B : Backend α) (G : FilterGen α) (J Mp Np : ℕ)
    (u : α) (j : ℕ) : α :=
  B.unpad (B.fftC2R (B.subsample (B.cdgmm u (G.phi Mp Np J j)) (2 ^ (J - j))))

/-- First band-pass stage (lines 239-243): apply `psi[n1][0]`, subsample by
`2^j1` only when `j1 > 0`, inverse FFT, modulus, FFT. -/
def U1c {α : Type _} (B : Backend α) (G : FilterGen α) (L Mp Np : ℕ)
    (x0 : α) (p : ℕ × ℕ) : α :=
  let u := B.cdgmm x0 (G.psi Mp Np L p.1 p.2 0)
  let u2 := if 0 < p.1 then B.subsample u (2 ^ p.1) else u
  B.fft (B.modulus (B.ifft u2))

/-- Deeper band-pass stage (lines 255-257, 271-273, 288-290): apply the
filter at the parent's resolution `jprev`, subsample by `2^(j-jprev)`,
inverse FFT, modulus, FFT. -/
def Unext {α : Type _} (B : Backend α) (G : FilterGen α) (L Mp Np : ℕ)
    (u : α) (jprev : ℕ) (p : ℕ × ℕ) : α :=
  B.fft (B.modulus (B.ifft
    (B.subsample (B.cdgmm u (G.psi Mp Np L p.1 p.2 jprev)) (2 ^ (p.1 - jprev)))))

/-- Order-1 emissions of the `n1` loop, in emission order, tagged with the
scale chain that produced them. -/
def order1Items {α : Type _} (B : Backend α) (G : FilterGen α)
    (J L Mp Np : ℕ) (x0 : α) : List (List (ℕ × ℕ) × α) :=
  (psiList J L).map fun p1 =>
    ([p1], outLow B G J Mp Np (U1c B G L Mp Np x0 p1) p1.1)

/-- Order-2 emissions of the guarded `n2` loop, in emission order. -/
def order2Items {α : Type _} (B : Backend α) (G : FilterGen α)
    (J L Mp Np : ℕ) (x0 : α) : List (List (ℕ × ℕ) × α) :=
  nest2 J L fun p1 p2 =>
    ([p1, p2],
      outLow B G J Mp Np
        (Unext B G L Mp Np (U1c B G L Mp Np x0 p1) p1.1 p2) p2.1)

/-- Order-3 emissions of the guarded `n3` loop, in emission order. -/
def order3Items {α : Type _} (B : Backend α) (G : FilterGen α)
    (J L Mp Np : ℕ) (x0 : α) : List (List (ℕ × ℕ) × α) :=
  nest3 J L fun p1 p2 p3 =>
    ([p1, p2, p3],
      outLow B G J Mp Np
        (Unext B G L Mp Np
          (Unext B G L Mp Np (U1c B G L Mp Np x0 p1) p1.1 p2) p2.1 p3) p3.1)

/-- Order-4 emissions of the guarded `n4` loop, in emission order. -/
def order4Items {α : Type _} (B : Backend α) (G : FilterGen α)
    (J L Mp Np : ℕ) (x0 : α) : List (List (ℕ × ℕ) × α) :=
  nest4 J L fun p1 p2 p3 p4 =>
    ([p1, p2, p3, p4],
      outLow B G J Mp Np
        (Unext B G L Mp Np
          (Unext B G L Mp Np
            (Unext B G L Mp Np (U1c B G L Mp Np x0 p1) p1.1 p2) p2.1 p3)
          p3.1 p4) p4.1)

/-- Every output channel produced by the cascade, tagged with its scale
chain: the order-0 channel followed by the per-order emissions, each order
guarded by `max_order` exactly as in the source. -/
def allItems {α : Type _} (B : Backend α) (G : FilterGen α)
    (cfg : ScatteringConfig) (x : α) : List (List (ℕ × ℕ) × α) :=
  let x0 := U0c B cfg.M cfg.N cfg.Mp cfg.Np cfg.prePad x
  ([], outLow B G cfg.J cfg.Mp cfg.Np x0 0) ::
    (order1Items B G cfg.J cfg.L cfg.Mp cfg.Np x0
      ++ (if 2 ≤ cfg.maxOrder then order2Items B G cfg.J cfg.L cfg.Mp cfg.Np x0 else [])
      ++ (if 3 ≤ cfg.maxOrder then order3Items B G cfg.J cfg.L cfg.Mp cfg.Np x0 else [])
      ++ (if 4 ≤ cfg.maxOrder then order4Items B G cfg.J cfg.L cfg.Mp cfg.Np x0 else []))

/-- The channel writes `S[..., n, :, :] = value` of one forward pass.
The source writes depth-first with four independent counters
(`n_order1 = 1`, `n_order2 = 1 + order1_size`,
`n_order3 = 1 + order1_size + order2_size`,
`n_order4 = 1 + order1_size + order2_size + order3_size`, lines 230-235);
each counter increments only on emissions of its own order, so the n-th
emission of order k lands at start-of-order-k + n, which is what
`List.enumFrom` realizes per order here. -/
def forwardWrites {α : Type _} (B : Backend α) (G : FilterGen α)
    (cfg : ScatteringConfig) (x : α) : List (ℕ × α) :=
  let x0 := U0c B cfg.M cfg.N cfg.Mp cfg.Np cfg.prePad x
  (0, outLow B G cfg.J cfg.Mp cfg.Np x0 0) ::
    (List.enumFrom 1 ((order1Items B G cfg.J cfg.L cfg.Mp cfg.Np x0).map Prod.snd)
      ++ List.enumFrom (1 + order1_size cfg.J cfg.L)
          ((if 2 ≤ cfg.maxOrder then order2Items B G cfg.J cfg.L cfg.Mp cfg.Np x0 else []).map Prod.snd)
      ++ List.enumFrom (1 + order1_size cfg.J cfg.L + order2_size cfg.J cfg.L)
          ((if 3 ≤ cfg.maxOrder then order3Items B G cfg.J cfg.L cfg.Mp cfg.Np x0 else []).map Prod.snd)
      ++ List.enumFrom (1 + order1_size cfg.J cfg.L + order2_size cfg.J cfg.L + order3_size cfg.J cfg.L)
          ((if 4 ≤ cfg.maxOrder then order4Items B G cfg.J cfg.L cfg.Mp cfg.Np x0 else []).map Prod.snd))

/-- Spatial dimensions of the allocated output tensor `S`
(lines 219-220): `M_padded // 2**J - 2` by `N_padded // 2**J - 2`. -/
def out_spatial (cfg : ScatteringConfig) : ℕ × ℕ :=
  (cfg.Mp / 2 ^ cfg.J - 2, cfg.Np / 2 ^ cfg.J - 2)

/-- Spatial size of a terminal cascade signal after the full `2^J`
subsampling of the padded canvas, before the final crop. -/
def pre_crop_size (cfg : ScatteringConfig) : ℕ × ℕ :=
  (cfg.Mp / 2 ^ cfg.J, cfg.Np / 2 ^ cfg.J)

/-- `forward` (lines 168-302): input validation in source order, then the
transform; the result is the output shape (batch dims preserved, lines
184-187 and 299-301) together with the channel writes. -/
def forward {α : Type _} (B : Backend α) (G : FilterGen α)
    (cfg : ScatteringConfig) (x : InputTensor α) :
    Except FwdError (List ℕ × List (ℕ × α)) :=
  if x.isTensor = false then .error .typeErr
  else if x.shape.length < 2 then .error .rankErr
  else if x.contiguous = false then .error .contigErr
  else if (x.shape.getLastD 0 ≠ cfg.N ∨ x.shape.dropLast.getLastD 0 ≠ cfg.M)
      ∧ cfg.prePad = false then .error .sizeUnpadded
  else if (x.shape.getLastD 0 ≠ cfg.Np ∨ x.shape.dropLast.getLastD 0 ≠ cfg.Mp)
      ∧ cfg.prePad = true then .error .sizePadded
  else
    .ok (x.shape.dropLast.dropLast
          ++ [output_size cfg.J cfg.L cfg.maxOrder,
              (out_spatial cfg).1, (out_spatial cfg).2],
         forwardWrites B G cfg x.data)

/-- Shape of the tensor returned by `forward`. -/
def forwardShape {α : Type _} (B : Backend α) (G : FilterGen α)
    (cfg : ScatteringConfig) (x : InputTensor α) : Except FwdError (List ℕ) :=
  (forward B G cfg x).map Prod.fst

/-- Value written into output channel `i` (first write at that index). -/
def channelAt {α : Type _} (ws : List (ℕ × α)) (i : ℕ) : Option α :=
  (ws.find? fun w => w.1 == i).map Prod.snd

/-- Trivial backend over a one-point signal type, used to instantiate the
abstract theorems on concrete inputs. -/
def unitBackend : Backend Unit :=
  { mkPad := fun _ _ _ _ => (), fft := fun _ => (), ifft := fun _ => (),
    fftC2R := fun _ => (), cdgmm := fun _ _ => (), subsample := fun _ _ => (),
    modulus := fun _ => (), unpad := fun _ => () }

/-- Trivial filter generator over the one-point signal type. -/
def unitFilters : FilterGen Unit :=
  { phi := fun _ _ _ _ => (), psi := fun _ _ _ _ _ _ => () }

/-!
Concrete fixtures used to instantiate the abstract theorems.
-/

/-- Well-formed `float64` input of shape `(1, 1, 32, 32)`. -/
def xBatch : InputTensor Unit :=
  { isTensor := true, dtype := .float64, shape := [1, 1, 32, 32],
    contiguous := true, data := () }

/-- Well-formed `float64` input of shape `(8, 8)`, no batch dimensions. -/
def xPlain : InputTensor Unit :=
  { isTensor := true, dtype := .float64, shape := [8, 8],
    contiguous := true, data := () }

/-- Well-formed input of shape `(2, 2)`. -/
def xSmall : InputTensor Unit :=
  { isTensor := true, dtype := .float64, shape := [2, 2],
    contiguous := true, data := () }

/-- 1-dimensional input (wrong rank). -/
def xRank1 : InputTensor Unit :=
  { isTensor := true, dtype := .float64, shape := [5],
    contiguous := true, data := () }

/-- Non-contiguous input of otherwise valid shape. -/
def xNonContig : InputTensor Unit :=
  { isTensor := true, dtype := .float64, shape := [2, 2],
    contiguous := false, data := () }

/-- Input whose spatial size does not match `(M, N) = (2, 2)`. -/
def xWrongSize : InputTensor Unit :=
  { isTensor := true, dtype := .float64, shape := [2, 3],
    contiguous := true, data := () }

/-- Something that is not a tensor at all. -/
def xNonTensor : InputTensor Unit :=
  { isTensor := false, dtype := .float64, shape := [2, 2],
    contiguous := true, data := () }

/-- A tensor of integer dtype with valid shape `(2, 2)`. -/
def xIntDtype : InputTensor Unit :=
  { isTensor := true, dtype := .int64, shape := [2, 2],
    contiguous := true, data := () }

lemma psiList_succ (J L : ℕ) :
    psiList (J + 1) L = psiList J L ++ ((List.range L).map fun θ => (J, θ)) := by
  simp [psiList, List.range_succ]

lemma sum_map_const {β : Type _} (l : List β) (c : ℕ) :
    (l.map fun _ => c).sum = l.length * c := by
  induction l with
  | nil => simp
  | cons a t ih => simp [ih, Nat.succ_mul, Nat.add_comm]

lemma psiList_length (J L : ℕ) : (psiList J L).length = J * L := by
  induction J with
  | zero => simp [psiList]
  | succ J ih =>
      rw [psiList_succ, List.length_append, ih, List.length_map, List.length_range,
        Nat.succ_mul]

lemma sum_psiList (J L : ℕ) (g : ℕ → ℕ) :
    ((psiList J L).map fun p => g p.1).sum = L * ∑ j in Finset.range J, g j := by
  induction J with
  | zero => simp [psiList]
  | succ J ih =>
      rw [psiList_succ, List.map_append, List.sum_append, ih, Finset.sum_range_succ,
        List.map_map]
      have h2 : (((List.range L).map fun θ => (J, θ)).map fun p => g p.1).sum = L * g J := by
        rw [List.map_map]
        show ((List.range L).map fun _ => g J).sum = L * g J
        rw [sum_map_const, List.length_range]
      rw [List.map_map] at h2
      rw [h2, Nat.mul_add]

lemma sum_choose (n k : ℕ) :
    ∑ j in Finset.range n, j.choose k = n.choose (k + 1) := by
  induction n with
  | zero => simp
  | succ n ih =>
      rw [Finset.sum_range_succ, ih, Nat.choose_succ_succ']
      omega

lemma sum_ite_lt (f : ℕ → ℕ) (b n : ℕ) (h : b ≤ n) :
    (∑ j in Finset.range n, if j < b then f j else 0) = ∑ j in Finset.range b, f j := by
  rw [← Finset.sum_filter]
  congr 1
  ext x
  simp only [Finset.mem_filter, Finset.mem_range]
  omega

lemma hock (k a J : ℕ) :
    (∑ j in Finset.range J, if a < j then (J - (j + 1)).choose k else 0)
      = (J - (a + 1)).choose (k + 1) := by
  cases J with
  | zero => simp
  | succ J =>
      rw [← Finset.sum_range_reflect]
      have step : ∀ j ∈ Finset.range (J + 1),
          (if a < J + 1 - 1 - j then (J + 1 - (J + 1 - 1 - j + 1)).choose k else 0)
            = (if j < J - a then j.choose k else 0) := by
        intro j hj
        simp only [Finset.mem_range] at hj
        have h1 : J + 1 - 1 - j = J - j := by omega
        have h2 : J + 1 - (J - j + 1) = j := by omega
        rw [h1, h2]
        exact if_congr (by omega) rfl rfl
      rw [Finset.sum_congr rfl step, sum_ite_lt _ _ _ (by omega), sum_choose]
      congr 1
      omega

lemma cnt_eq (k a J : ℕ) : cnt k a J = (J - (a + 1)).choose k := by
  induction k generalizing a with
  | zero => simp [cnt]
  | succ k ih =>
      show (∑ j in Finset.range J, if a < j then cnt k j J else 0) = _
      simp only [ih]
      exact hock k a J

lemma sum_cnt_top (k J : ℕ) :
    ∑ j in Finset.range J, (J - (j + 1)).choose k = J.choose (k + 1) := by
  cases J with
  | zero => simp
  | succ J =>
      rw [← Finset.sum_range_reflect]
      have step : ∀ j ∈ Finset.range (J + 1),
          (J + 1 - (J + 1 - 1 - j + 1)).choose k = j.choose k := by
        intro j hj
        simp only [Finset.mem_range] at hj
        congr 1
        omega
      rw [Finset.sum_congr rfl step, sum_choose]

lemma length_flatMap_psi {β : Type _} (J L : ℕ) (f : ℕ × ℕ → List β) (g : ℕ → ℕ)
    (hf : ∀ p, (f p).length = g p.1) :
    ((psiList J L).flatMap f).length = L * ∑ j in Finset.range J, g j := by
  rw [List.length_flatMap]
  have : ((psiList J L).map (List.length ∘ f)) = (psiList J L).map fun p => g p.1 :=
    List.map_congr_left fun p _ => hf p
  rw [this, sum_psiList]

lemma ite_list_length {β : Type _} (c : Prop) [Decidable c] (l : List β) :
    (if c then l else []).length = if c then l.length else 0 := by
  split <;> rfl

lemma guard_sum_cnt (J L a k : ℕ) :
    (∑ j in Finset.range J, if a < j then L ^ k * cnt k j J else 0)
      = L ^ k * cnt (k + 1) a J := by
  have hc : cnt (k + 1) a J = ∑ j in Finset.range J, if a < j then cnt k j J else 0 := rfl
  rw [hc, Finset.mul_sum]
  refine Finset.sum_congr rfl fun j _ => ?_
  by_cases h : a < j <;> simp [h]

lemma length_guard_flatMap {β : Type _} (J L a k : ℕ) (f : ℕ × ℕ → List β)
    (hf : ∀ p, (f p).length = L ^ k * cnt k p.1 J) :
    ((psiList J L).flatMap fun p => if a < p.1 then f p else []).length
      = L ^ (k + 1) * cnt (k + 1) a J := by
  rw [length_flatMap_psi J L _ (fun j => if a < j then L ^ k * cnt k j J else 0)
      (fun p => by rw [ite_list_length, hf p])]
  rw [guard_sum_cnt, pow_succ, Nat.mul_comm (L ^ k) L, Nat.mul_assoc]

lemma cnt_one (a J : ℕ) :
    cnt 1 a J = ∑ j in Finset.range J, if a < j then 1 else 0 := by
  simp [cnt]

lemma length_guard_singleton {β : Type _} (J L a : ℕ) (f : ℕ × ℕ → β) :
    ((psiList J L).flatMap fun p => if a < p.1 then [f p] else []).length
      = L ^ 1 * cnt 1 a J := by
  rw [length_flatMap_psi J L _ (fun j => if a < j then 1 else 0)
      (fun p => by rw [ite_list_length]; rfl)]
  rw [cnt_one, pow_one]

lemma nest2_length {β : Type _} (J L : ℕ) (F : ℕ × ℕ → ℕ × ℕ → β) :
    (nest2 J L F).length = L ^ 2 * J.choose 2 := by
  unfold nest2
  rw [length_flatMap_psi J L _ (fun j1 => L ^ 1 * cnt 1 j1 J)
      (fun p1 => length_guard_singleton J L p1.1 _)]
  calc L * ∑ j in Finset.range J, L ^ 1 * cnt 1 j J
      = L ^ 2 * ∑ j in Finset.range J, cnt 1 j J := by
        rw [← Finset.mul_sum, ← Nat.mul_assoc, pow_one, ← pow_two]
    _ = L ^ 2 * J.choose 2 := by
        simp only [cnt_eq]
        rw [sum_cnt_top]

lemma nest3_length {β : Type _} (J L : ℕ) (F : ℕ × ℕ → ℕ × ℕ → ℕ × ℕ → β) :
    (nest3 J L F).length = L ^ 3 * J.choose 3 := by
  unfold nest3
  rw [length_flatMap_psi J L _ (fun j1 => L ^ 2 * cnt 2 j1 J)
      (fun p1 => length_guard_flatMap J L p1.1 1 _
        (fun p2 => length_guard_singleton J L p2.1 _))]
  calc L * ∑ j in Finset.range J, L ^ 2 * cnt 2 j J
      = L ^ 3 * ∑ j in Finset.range J, cnt 2 j J := by
        rw [← Finset.mul_sum, ← Nat.mul_assoc, ← pow_succ']
    _ = L ^ 3 * J.choose 3 := by
        simp only [cnt_eq]
        rw [sum_cnt_top]

lemma nest4_length {β : Type _} (J L : ℕ) (F : ℕ × ℕ → ℕ × ℕ → ℕ × ℕ → ℕ × ℕ → β) :
    (nest4 J L F).length = L ^ 4 * J.choose 4 := by
  unfold nest4
  rw [length_flatMap_psi J L _ (fun j1 => L ^ 3 * cnt 3 j1 J)
      (fun p1 => length_guard_flatMap J L p1.1 2 _
        (fun p2 => length_guard_flatMap J L p2.1 1 _
          (fun p3 => length_guard_singleton J L p3.1 _)))]
  calc L * ∑ j in Finset.range J, L ^ 3 * cnt 3 j J
      = L ^ 4 * ∑ j in Finset.range J, cnt 3 j J := by
        rw [← Finset.mul_sum, ← Nat.mul_assoc, ← pow_succ']
    _ = L ^ 4 * J.choose 4 := by
        simp only [cnt_eq]
        rw [sum_cnt_top]

lemma mem_nest2 {β : Type _} {J L : ℕ} {F : ℕ × ℕ → ℕ × ℕ → β} {x : β}
    (h : x ∈ nest2 J L F) :
    ∃ p1 p2, p1 ∈ psiList J L ∧ p2 ∈ psiList J L ∧ p1.1 < p2.1 ∧ x = F p1 p2 := by
  simp only [nest2, List.mem_flatMap] at h
  obtain ⟨p1, hp1, p2, hp2, h⟩ := h
  by_cases hc : p1.1 < p2.1
  · rw [if_pos hc] at h
    simp only [List.mem_singleton] at h
    exact ⟨p1, p2, hp1, hp2, hc, h⟩
  · rw [if_neg hc] at h
    simp at h

lemma mem_nest3 {β : Type _} {J L : ℕ} {F : ℕ × ℕ → ℕ × ℕ → ℕ × ℕ → β} {x : β}
    (h : x ∈ nest3 J L F) :
    ∃ p1 p2 p3, p1.1 < p2.1 ∧ p2.1 < p3.1 ∧ x = F p1 p2 p3 := by
  simp only [nest3, List.mem_flatMap] at h
  obtain ⟨p1, hp1, p2, hp2, h⟩ := h
  by_cases hc : p1.1 < p2.1
  · rw [if_pos hc] at h
    simp only [List.mem_flatMap] at h
    obtain ⟨p3, hp3, h⟩ := h
    by_cases hc2 : p2.1 < p3.1
    · rw [if_pos hc2] at h
      simp only [List.mem_singleton] at h
      exact ⟨p1, p2, p3, hc, hc2, h⟩
    · rw [if_neg hc2] at h
      simp at h
  · rw [if_neg hc] at h
    simp at h

lemma mem_nest4 {β : Type _} {J L : ℕ} {F : ℕ × ℕ → ℕ × ℕ → ℕ × ℕ → ℕ × ℕ → β} {x : β}
    (h : x ∈ nest4 J L F) :
    ∃ p1 p2 p3 p4, p1.1 < p2.1 ∧ p2.1 < p3.1 ∧ p3.1 < p4.1 ∧ x = F p1 p2 p3 p4 := by
  simp only [nest4, List.mem_flatMap] at h
  obtain ⟨p1, hp1, p2, hp2, h⟩ := h
  by_cases hc : p1.1 < p2.1
  · rw [if_pos hc] at h
    simp only [List.mem_flatMap] at h
    obtain ⟨p3, hp3, h⟩ := h
    by_cases hc2 : p2.1 < p3.1
    · rw [if_pos hc2] at h
      simp only [List.mem_flatMap] at h
      obtain ⟨p4, hp4, h⟩ := h
      by_cases hc3 : p3.1 < p4.1
      · rw [if_pos hc3] at h
        simp only [List.mem_singleton] at h
        exact ⟨p1, p2, p3, p4, hc, hc2, hc3, h⟩
      · rw [if_neg hc3] at h
        simp at h
    · rw [if_neg hc2] at h
      simp at h
  · rw [if_neg hc] at h
    simp at h

lemma desc_two (J : ℕ) : J.descFactorial 2 = J * (J - 1) := by
  show (J - 1) * (J * 1) = J * (J - 1)
  rw [Nat.mul_one, Nat.mul_comm]

lemma desc_three (J : ℕ) : J.descFactorial 3 = J * (J - 1) * (J - 2) := by
  show (J - 2) * ((J - 1) * (J * 1)) = J * (J - 1) * (J - 2)
  rw [Nat.mul_one, Nat.mul_comm (J - 1) J, Nat.mul_comm]

lemma desc_four (J : ℕ) : J.descFactorial 4 = J * (J - 1) * (J - 2) * (J - 3) := by
  show (J - 3) * ((J - 2) * ((J - 1) * (J * 1))) = J * (J - 1) * (J - 2) * (J - 3)
  ring

lemma order2_size_eq (J L : ℕ) : order2_size J L = L ^ 2 * J.choose 2 := by
  have hd : 2 ∣ J * (J - 1) := by
    have := Nat.factorial_dvd_descFactorial J 2
    rw [desc_two] at this
    exact this
  rw [order2_size, Nat.choose_two_right, Nat.mul_assoc, Nat.mul_div_assoc _ hd]

lemma order3_size_eq (J L : ℕ) : order3_size J L = L ^ 3 * J.choose 3 := by
  have hd : 6 ∣ J * (J - 1) * (J - 2) := by
    have := Nat.factorial_dvd_descFactorial J 3
    rw [desc_three] at this
    exact this
  have hc : J.choose 3 = J * (J - 1) * (J - 2) / 6 := by
    rw [Nat.choose_eq_descFactorial_div_factorial, desc_three]
    rfl
  rw [order3_size, hc]
  rw [show (3 * 2 : ℕ) = 6 from rfl, Nat.mul_div_assoc _ hd]

lemma order4_size_eq (J L : ℕ) : order4_size J L = L ^ 4 * J.choose 4 := by
  have hd : 24 ∣ J * (J - 1) * (J - 2) * (J - 3) := by
    have := Nat.factorial_dvd_descFactorial J 4
    rw [desc_four] at this
    exact this
  have hc : J.choose 4 = J * (J - 1) * (J - 2) * (J - 3) / 24 := by
    rw [Nat.choose_eq_descFactorial_div_factorial, desc_four]
    rfl
  rw [order4_size, hc]
  rw [show (4 * 3 * 2 : ℕ) = 24 from rfl, Nat.mul_div_assoc _ hd]

@[simp] lemma build_J (J : ℕ) (s : ℕ × ℕ) (L : ℕ) (mo : ℤ) (pp : Bool) :
    (build J s L mo pp).J = J := rfl

@[simp] lemma build_L (J : ℕ) (s : ℕ × ℕ) (L : ℕ) (mo : ℤ) (pp : Bool) :
    (build J s L mo pp).L = L := rfl

@[simp] lemma build_maxOrder (J : ℕ) (s : ℕ × ℕ) (L : ℕ) (mo : ℤ) (pp : Bool) :
    (build J s L mo pp).maxOrder = mo := rfl

@[simp] lemma build_M (J : ℕ) (s : ℕ × ℕ) (L : ℕ) (mo : ℤ) (pp : Bool) :
    (build J s L mo pp).M = s.1 := rfl

@[simp] lemma build_N (J : ℕ) (s : ℕ × ℕ) (L : ℕ) (mo : ℤ) (pp : Bool) :
    (build J s L mo pp).N = s.2 := rfl

@[simp] lemma build_prePad (J : ℕ) (s : ℕ × ℕ) (L : ℕ) (mo : ℤ) (pp : Bool) :
    (build J s L mo pp).prePad = pp := rfl

@[simp] lemma build_Mp (J : ℕ) (s : ℕ × ℕ) (L : ℕ) (mo : ℤ) (pp : Bool) :
    (build J s L mo pp).Mp = (compute_padding s.1 s.2 J).1 := rfl

@[simp] lemma build_Np (J : ℕ) (s : ℕ × ℕ) (L : ℕ) (mo : ℤ) (pp : Bool) :
    (build J s L mo pp).Np = (compute_padding s.1 s.2 J).2 := rfl

/-!
Channel counting: the number of emissions of each order equals the
corresponding precomputed size, so the cascade fills the allocated tensor
exactly.
-/

lemma order1Items_length {α : Type _} (B : Backend α) (G : FilterGen α)
    (J L Mp Np : ℕ) (x0 : α) :
    (order1Items B G J L Mp Np x0).length = order1_size J L := by
  rw [order1Items, List.length_map, psiList_length, order1_size, Nat.mul_comm]

lemma order2Items_length {α : Type _} (B : Backend α) (G : FilterGen α)
    (J L Mp Np : ℕ) (x0 : α) :
    (order2Items B G J L Mp Np x0).length = order2_size J L := by
  rw [order2Items, nest2_length, order2_size_eq]

lemma order3Items_length {α : Type _} (B : Backend α) (G : FilterGen α)
    (J L Mp Np : ℕ) (x0 : α) :
    (order3Items B G J L Mp Np x0).length = order3_size J L := by
  rw [order3Items, nest3_length, order3_size_eq]

lemma order4Items_length {α : Type _} (B : Backend α) (G : FilterGen α)
    (J L Mp Np : ℕ) (x0 : α) :
    (order4Items B G J L Mp Np x0).length = order4_size J L := by
  rw [order4Items, nest4_length, order4_size_eq]

lemma range1_glue (s m t n : ℕ) (h : t = s + m) :
    List.range' s m ++ List.range' t n = List.range' s (m + n) := by
  subst h
  rw [List.range'_append_1, Nat.add_comm]

/-- The written channel indices of a forward pass are exactly
`0, 1, ..., output_size - 1`, each exactly once, in order. -/
lemma forwardWrites_map_fst {α : Type _} (B : Backend α) (G : FilterGen α)
    (cfg : ScatteringConfig) (x : α) :
    (forwardWrites B G cfg x).map Prod.fst
      = List.range (output_size cfg.J cfg.L cfg.maxOrder) := by
  set J := cfg.J
  set L := cfg.L
  set x0 := U0c B cfg.M cfg.N cfg.Mp cfg.Np cfg.prePad x
  have l1 : ((order1Items B G J L cfg.Mp cfg.Np x0).map Prod.snd).length
      = order1_size J L := by
    rw [List.length_map, order1Items_length]
  have l2 : ((if 2 ≤ cfg.maxOrder then order2Items B G J L cfg.Mp cfg.Np x0 else []).map
        Prod.snd).length
      = if 2 ≤ cfg.maxOrder then order2_size J L else 0 := by
    rw [List.length_map, ite_list_length, order2Items_length]
  have l3 : ((if 3 ≤ cfg.maxOrder then order3Items B G J L cfg.Mp cfg.Np x0 else []).map
        Prod.snd).length
      = if 3 ≤ cfg.maxOrder then order3_size J L else 0 := by
    rw [List.length_map, ite_list_length, order3Items_length]
  have l4 : ((if 4 ≤ cfg.maxOrder then order4Items B G J L cfg.Mp cfg.Np x0 else []).map
        Prod.snd).length
      = if 4 ≤ cfg.maxOrder then order4_size J L else 0 := by
    rw [List.length_map, ite_list_length, order4Items_length]
  rw [forwardWrites, List.map_cons, List.map_append, List.map_append, List.map_append,
    List.enumFrom_map_fst, List.enumFrom_map_fst, List.enumFrom_map_fst,
    List.enumFrom_map_fst, l1, l2, l3, l4, output_size, List.range_eq_range']
  set o1 := order1_size J L
  set o2 := order2_size J L
  set o3 := order3_size J L
  set o4 := order4_size J L
  by_cases h2 : 2 ≤ cfg.maxOrder
  · by_cases h3 : 3 ≤ cfg.maxOrder
    · by_cases h4 : 4 ≤ cfg.maxOrder
      · rw [if_pos h2, if_pos h3, if_pos h4,
          range1_glue 1 o1 (1 + o1) o2 rfl,
          range1_glue 1 (o1 + o2) (1 + o1 + o2) o3 (by omega),
          range1_glue 1 (o1 + o2 + o3) (1 + o1 + o2 + o3) o4 (by omega),
          show 1 + o1 + o2 + o3 + o4 = (o1 + o2 + o3 + o4) + 1 from by omega,
          List.range'_succ]
      · rw [if_pos h2, if_pos h3, if_neg h4, List.range'_zero, List.append_nil,
          range1_glue 1 o1 (1 + o1) o2 rfl,
          range1_glue 1 (o1 + o2) (1 + o1 + o2) o3 (by omega),
          show 1 + o1 + o2 + o3 + 0 = (o1 + o2 + o3) + 1 from by omega,
          List.range'_succ]
    · have h4 : ¬ 4 ≤ cfg.maxOrder := by omega
      rw [if_pos h2, if_neg h3, if_neg h4, List.range'_zero, List.range'_zero,
        List.append_nil, List.append_nil,
        range1_glue 1 o1 (1 + o1) o2 rfl,
        show 1 + o1 + o2 + 0 + 0 = (o1 + o2) + 1 from by omega,
        List.range'_succ]
  · have h3 : ¬ 3 ≤ cfg.maxOrder := by omega
    have h4 : ¬ 4 ≤ cfg.maxOrder := by omega
    rw [if_neg h2, if_neg h3, if_neg h4, List.range'_zero, List.range'_zero,
      List.range'_zero, List.append_nil, List.append_nil, List.append_nil,
      show 1 + o1 + 0 + 0 + 0 = o1 + 1 from by omega,
      List.range'_succ]

/-- The cascade emits exactly `output_size` channels. -/
lemma allItems_length {α : Type _} (B : Backend α) (G : FilterGen α)
    (cfg : ScatteringConfig) (x : α) :
    (allItems B G cfg x).length = output_size cfg.J cfg.L cfg.maxOrder := by
  rw [allItems, List.length_cons, List.length_append, List.length_append,
    List.length_append, order1Items_length, ite_list_length, ite_list_length,
    ite_list_length, order2Items_length, order3Items_length, order4Items_length,
    output_size]
  omega

lemma order3_size_flat (J L : ℕ) :
    order3_size J L = L ^ 3 * J * (J - 1) * (J - 2) / 6 := by
  rw [order3_size, show L ^ 3 * (J * (J - 1) * (J - 2))
      = L ^ 3 * J * (J - 1) * (J - 2) from by ring]

lemma order4_size_flat (J L : ℕ) :
    order4_size J L = L ^ 4 * J * (J - 1) * (J - 2) * (J - 3) / 24 := by
  rw [order4_size, show L ^ 4 * (J * (J - 1) * (J - 2) * (J - 3))
      = L ^ 4 * J * (J - 1) * (J - 2) * (J - 3) from by ring]

/-- Successful validation and output-shape computation of `forward` on a
well-formed unpadded input with arbitrary leading batch dimensions. -/
lemma forward_shape_ok {α : Type _} (B : Backend α) (G : FilterGen α)
    (J L M N : ℕ) (mo : ℤ) (bs : List ℕ) (x : InputTensor α)
    (hT : x.isTensor = true) (hC : x.contiguous = true)
    (hS : x.shape = bs ++ [M, N]) :
    forwardShape B G (build J (M, N) L mo false) x
      = .ok (bs ++ [output_size J L mo,
          (compute_padding M N J).1 / 2 ^ J - 2,
          (compute_padding M N J).2 / 2 ^ J - 2]) := by
  have hsplit : bs ++ [M, N] = (bs ++ [M]) ++ [N] := by simp
  have hlastN : x.shape.getLastD 0 = N := by
    rw [hS, hsplit, List.getLastD_concat]
  have hdrop : x.shape.dropLast = bs ++ [M] := by
    rw [hS, hsplit, List.dropLast_concat]
  have hlastM : x.shape.dropLast.getLastD 0 = M := by
    rw [hdrop, List.getLastD_concat]
  have hdrop2 : x.shape.dropLast.dropLast = bs := by
    rw [hdrop, List.dropLast_concat]
  have hlen : ¬ (x.shape.length < 2) := by
    rw [hS, List.length_append]
    simp
  rw [forwardShape, forward]
  rw [if_neg (by simp [hT] : ¬ (x.isTensor = false))]
  rw [if_neg hlen]
  rw [if_neg (by simp [hC] : ¬ (x.contiguous = false))]
  rw [if_neg (by
    rintro ⟨h1, _⟩
    rcases h1 with h | h
    · exact h hlastN
    · exact h hlastM :
    ¬ ((x.shape.getLastD 0 ≠ (build J (M, N) L mo false).N
        ∨ x.shape.dropLast.getLastD 0 ≠ (build J (M, N) L mo false).M)
      ∧ (build J (M, N) L mo false).prePad = false))]
  rw [if_neg (by
    rintro ⟨_, hpp⟩
    exact Bool.noConfusion hpp :
    ¬ ((x.shape.getLastD 0 ≠ (build J (M, N) L mo false).Np
        ∨ x.shape.dropLast.getLastD 0 ≠ (build J (M, N) L mo false).Mp)
      ∧ (build J (M, N) L mo false).prePad = true))]
  rw [Except.map, hdrop2]
  rfl

/-!
The claims.
-/

/-- C1: for every constructed `Scattering2D(J, shape, L, max_order)`, the
channel dimension `D` of the output equals `1 + L·J`, plus
`L²·J·(J-1)/2` when `max_order ≥ 2`, plus `L³·J·(J-1)·(J-2)/6` when
`max_order ≥ 3`, plus `L⁴·J·(J-1)·(J-2)·(J-3)/24` when `max_order ≥ 4`;
and the number of channels actually emitted by the cascade equals this
same `D`. -/
theorem channel_count_closed_form {α : Type _} (B : Backend α)
    (G : FilterGen α) (J L M N : ℕ) (mo : ℤ) (pp : Bool) (x : α) :
    (allItems B G (build J (M, N) L mo pp) x).length
        = 1 + L * J
          + (if 2 ≤ mo then L ^ 2 * J * (J - 1) / 2 else 0)
          + (if 3 ≤ mo then L ^ 3 * J * (J - 1) * (J - 2) / 6 else 0)
          + (if 4 ≤ mo then L ^ 4 * J * (J - 1) * (J - 2) * (J - 3) / 24 else 0)
      ∧ (allItems B G (build J (M, N) L mo pp) x).length
        = output_size J L mo := by
  have h := allItems_length B G (build J (M, N) L mo pp) x
  rw [build_J, build_L, build_maxOrder] at h
  refine ⟨?_, h⟩
  rw [h, output_size, order1_size, order3_size_flat, order4_size_flat,
    order2_size]

/-- C2: every output channel emitted by the cascade carries a strictly
increasing scale chain `j1 < j2 < ... < jn`; no channel is emitted for a
chain with `j_k ≥ j_(k+1)` (in particular every order-2 path has
`j1 < j2`). -/
theorem emitted_scale_chains_strictly_increasing {α : Type _}
    (B : Backend α) (G : FilterGen α) (cfg : ScatteringConfig) (x : α)
    (it : List (ℕ × ℕ) × α) (h : it ∈ allItems B G cfg x) :
    List.Pairwise (· < ·) (it.1.map Prod.fst) := by
  rw [allItems] at h
  rcases List.mem_cons.mp h with h0 | h1
  · rw [h0]
    simp
  · rcases List.mem_append.mp h1 with h123 | h4
    · rcases List.mem_append.mp h123 with h12 | h3
      · rcases List.mem_append.mp h12 with hx1 | hx2
        · rw [order1Items] at hx1
          obtain ⟨p1, _, hp⟩ := List.mem_map.mp hx1
          rw [← hp]
          simp
        · by_cases hc : 2 ≤ cfg.maxOrder
          · rw [if_pos hc, order2Items] at hx2
            obtain ⟨p1, p2, _, _, hlt, hF⟩ := mem_nest2 hx2
            rw [hF]
            simp only [List.map_cons, List.map_nil]
            exact List.Pairwise.cons (by simpa using hlt) (by simp)
          · rw [if_neg hc] at hx2
            simp at hx2
      · by_cases hc : 3 ≤ cfg.maxOrder
        · rw [if_pos hc, order3Items] at h3
          obtain ⟨p1, p2, p3, h12, h23, hF⟩ := mem_nest3 h3
          rw [hF]
          simp only [List.map_cons, List.map_nil]
          refine List.Pairwise.cons ?_ (List.Pairwise.cons (by simpa using h23) (by simp))
          intro b hb
          simp only [List.mem_cons, List.mem_singleton] at hb
          rcases hb with hb | hb | hb
          · omega
          · omega
          · simp at hb
        · rw [if_neg hc] at h3
          simp at h3
    · by_cases hc : 4 ≤ cfg.maxOrder
      · rw [if_pos hc, order4Items] at h4
        obtain ⟨p1, p2, p3, p4, h12, h23, h34, hF⟩ := mem_nest4 h4
        rw [hF]
        simp only [List.map_cons, List.map_nil]
        refine List.Pairwise.cons ?_
          (List.Pairwise.cons ?_ (List.Pairwise.cons (by simpa using h34) (by simp)))
        · intro b hb
          simp only [List.mem_cons, List.mem_singleton] at hb
          rcases hb with hb | hb | hb | hb
          · omega
          · omega
          · omega
          · simp at hb
        · intro b hb
          simp only [List.mem_cons, List.mem_singleton] at hb
          rcases hb with hb | hb | hb
          · omega
          · omega
          · simp at hb
      · rw [if_neg hc] at h4
        simp at h4

theorem emitted_scale_chains_strictly_increasing_witness :
    (([((0 : ℕ), (0 : ℕ)), ((1 : ℕ), (0 : ℕ))], ())
        ∈ allItems unitBackend unitFilters (build 2 (4, 4) 1 2 false) ())
      ∧ List.Pairwise (· < ·)
          ((([((0 : ℕ), (0 : ℕ)), ((1 : ℕ), (0 : ℕ))], ()) :
            List (ℕ × ℕ) × Unit).1.map Prod.fst) :=
  ⟨by decide,
   emitted_scale_chains_strictly_increasing unitBackend unitFilters
     (build 2 (4, 4) 1 2 false) () _ (by decide)⟩

/-- C3: on a valid real input of shape `(..., M, N)` (with arbitrary,
possibly empty, leading batch dimensions and `pre_pad = false`), `forward`
returns shape `(..., D, Md, Nd)` with the leading dimensions preserved,
where `D = output_size` and `Md = M_padded/2^J - 2`,
`Nd = N_padded/2^J - 2`. -/
theorem forward_output_shape {α : Type _} (B : Backend α) (G : FilterGen α)
    (J L M N : ℕ) (mo : ℤ) (bs : List ℕ) (x : InputTensor α)
    (hT : x.isTensor = true) (hC : x.contiguous = true)
    (hS : x.shape = bs ++ [M, N]) :
    forwardShape B G (build J (M, N) L mo false) x
      = .ok (bs ++ [output_size J L mo,
          (compute_padding M N J).1 / 2 ^ J - 2,
          (compute_padding M N J).2 / 2 ^ J - 2]) :=
  forward_shape_ok B G J L M N mo bs x hT hC hS

theorem forward_output_shape_witness :
    forwardShape unitBackend unitFilters (build 2 (32, 32) 8 2 false) xBatch
      = .ok [1, 1, 81, 6, 6] := by
  rw [forward_output_shape unitBackend unitFilters 2 8 32 32 2 [1, 1] xBatch
    rfl rfl rfl]
  rfl

/-- C4, counterexample: the claim says the terminal crop removes 2 pixels
from each side, so that the output spatial size would be the pre-crop size
minus 4; at `J = 2, shape = (32, 32)` the allocated output spatial size is
`32/4 - 2 = 6`, not `32/4 - 4 = 4`. -/
theorem unpad_margin_counterexample :
    out_spatial (build 2 (32, 32) 8 2 false)
      ≠ ((pre_crop_size (build 2 (32, 32) 8 2 false)).1 - 4,
         (pre_crop_size (build 2 (32, 32) 8 2 false)).2 - 4) := by
  decide

/-- C4, amended: the terminal crop removes a fixed margin of 1 pixel from
each side (2 pixels per axis in total) of the maximally subsampled signal,
so each output spatial dimension equals the pre-crop dimension
(padded size divided by `2^J`) minus 2. -/
theorem unpad_margin_amended {α : Type _} (B : Backend α) (G : FilterGen α)
    (J L M N : ℕ) (mo : ℤ) (bs : List ℕ) (x : InputTensor α)
    (hT : x.isTensor = true) (hC : x.contiguous = true)
    (hS : x.shape = bs ++ [M, N]) :
    forwardShape B G (build J (M, N) L mo false) x
      = .ok (bs ++ [output_size J L mo,
          (pre_crop_size (build J (M, N) L mo false)).1 - 2,
          (pre_crop_size (build J (M, N) L mo false)).2 - 2]) :=
  forward_shape_ok B G J L M N mo bs x hT hC hS

theorem unpad_margin_amended_witness :
    forwardShape unitBackend unitFilters (build 1 (8, 8) 1 1 false) xPlain
      = .ok [output_size 1 1 1,
          (pre_crop_size (build 1 (8, 8) 1 1 false)).1 - 2,
          (pre_crop_size (build 1 (8, 8) 1 1 false)).2 - 2] :=
  unpad_margin_amended unitBackend unitFilters 1 1 8 8 1 [] xPlain rfl rfl rfl

/-- C5: the order-0 output channel (index 0) is the padded input low-pass
filtered at scale `J`, subsampled by `2^J`, inverse-FFT'd to its real part
and cropped; it does not depend on `L` or `max_order`: two instances
differing only in those parameters produce the identical channel 0. -/
theorem order0_channel_lowpass_only {α : Type _} (B : Backend α)
    (G : FilterGen α) (J M N : ℕ) (pp : Bool) (L L2 : ℕ) (mo mo2 : ℤ)
    (x : α) :
    channelAt (forwardWrites B G (build J (M, N) L mo pp) x) 0
        = some (B.unpad (B.fftC2R (B.subsample
            (B.cdgmm
              (B.fft (B.mkPad
                (padAmounts M N (compute_padding M N J).1 (compute_padding M N J).2)
                [M, N] pp x))
              (G.phi (compute_padding M N J).1 (compute_padding M N J).2 J 0))
            (2 ^ J))))
      ∧ channelAt (forwardWrites B G (build J (M, N) L mo pp) x) 0
        = channelAt (forwardWrites B G (build J (M, N) L2 mo2 pp) x) 0 :=
  ⟨rfl, rfl⟩

/-- C6: construction succeeds exactly when `2^J ≤ M` and `2^J ≤ N`; the
check is made on the unpadded shape at construction time, so `2^J` equal
to a dimension is accepted, and a failed check yields an error with no
constructed instance. -/
theorem init_validity (J M N L : ℕ) (mo : ℤ) (pp : Bool) :
    exceptOk (scattering2D_init J (M, N) L mo pp)
      = (decide (2 ^ J ≤ M) && decide (2 ^ J ≤ N)) := by
  rw [scattering2D_init]
  by_cases h : 2 ^ J > (M, N).1 ∨ 2 ^ J > (M, N).2
  · rw [if_pos h]
    have h1 : ¬ (2 ^ J ≤ M ∧ 2 ^ J ≤ N) := by
      simp only [Prod.fst, Prod.snd] at h
      omega
    show false = _
    rcases Decidable.not_and_iff_or_not.mp h1 with h2 | h2 <;>
      simp [h2]
  · rw [if_neg h]
    have h1 : 2 ^ J ≤ M ∧ 2 ^ J ≤ N := by
      simp only [Prod.fst, Prod.snd] at h
      omega
    show true = _
    simp [h1.1, h1.2]

/-- C7: malformed input fails in `forward` before any padding, filter
application or floating-point work (the pure embedding returns an error and
no output), with one distinct error per malformation class, tested in
source order: rank below 2, non-contiguous layout, spatial size mismatch
in the unpadded mode, spatial size mismatch in the pre-padded mode. -/
theorem forward_input_validation {α : Type _} (B : Backend α)
    (G : FilterGen α) (cfg : ScatteringConfig) (x : InputTensor α) :
    (x.isTensor = true → x.shape.length < 2 →
        forward B G cfg x = .error .rankErr)
    ∧ (x.isTensor = true → 2 ≤ x.shape.length → x.contiguous = false →
        forward B G cfg x = .error .contigErr)
    ∧ (x.isTensor = true → 2 ≤ x.shape.length → x.contiguous = true →
        cfg.prePad = false →
        (x.shape.getLastD 0 ≠ cfg.N ∨ x.shape.dropLast.getLastD 0 ≠ cfg.M) →
        forward B G cfg x = .error .sizeUnpadded)
    ∧ (x.isTensor = true → 2 ≤ x.shape.length → x.contiguous = true →
        cfg.prePad = true →
        (x.shape.getLastD 0 ≠ cfg.Np ∨ x.shape.dropLast.getLastD 0 ≠ cfg.Mp) →
        forward B G cfg x = .error .sizePadded) := by
  refine ⟨?_, ?_, ?_, ?_⟩
  · intro hT hrank
    rw [forward, if_neg (by simp [hT]), if_pos hrank]
  · intro hT hrank hC
    rw [forward, if_neg (by simp [hT]), if_neg (by omega), if_pos hC]
  · intro hT hrank hC hpp hmis
    rw [forward, if_neg (by simp [hT]), if_neg (by omega),
      if_neg (by simp [hC]), if_pos ⟨hmis, hpp⟩]
  · intro hT hrank hC hpp hmis
    rw [forward, if_neg (by simp [hT]), if_neg (by omega),
      if_neg (by simp [hC]),
      if_neg (by
        rintro ⟨_, hf⟩
        rw [hpp] at hf
        exact Bool.noConfusion hf),
      if_pos ⟨hmis, hpp⟩]

theorem forward_input_validation_witness :
    forward unitBackend unitFilters (build 1 (2, 2) 1 1 false) xRank1
        = .error .rankErr
      ∧ forward unitBackend unitFilters (build 1 (2, 2) 1 1 false) xNonContig
        = .error .contigErr
      ∧ forward unitBackend unitFilters (build 1 (2, 2) 1 1 false) xWrongSize
        = .error .sizeUnpadded
      ∧ forward unitBackend unitFilters (build 1 (2, 2) 1 1 true) xWrongSize
        = .error .sizePadded :=
  ⟨(forward_input_validation unitBackend unitFilters
      (build 1 (2, 2) 1 1 false) xRank1).1 rfl (by decide),
   (forward_input_validation unitBackend unitFilters
      (build 1 (2, 2) 1 1 false) xNonContig).2.1 rfl (by decide) rfl,
   (forward_input_validation unitBackend unitFilters
      (build 1 (2, 2) 1 1 false) xWrongSize).2.2.1 rfl (by decide) rfl rfl
      (by decide),
   (forward_input_validation unitBackend unitFilters
      (build 1 (2, 2) 1 1 true) xWrongSize).2.2.2 rfl (by decide) rfl rfl
      (by decide)⟩

/-- C8, counterexample: the claim says wrong-dtype input raises a type
error before any filter application, but `forward` only tests
`torch.is_tensor`; a contiguous integer-dtype tensor of valid shape runs
to completion instead of raising. -/
theorem dtype_not_validated :
    xIntDtype.dtype = Dtype.int64
      ∧ forward unitBackend unitFilters (build 1 (2, 2) 1 1 false) xIntDtype
          ≠ .error FwdError.typeErr := by
  refine ⟨rfl, ?_⟩
  have hok : exceptOk
      (forward unitBackend unitFilters (build 1 (2, 2) 1 1 false) xIntDtype)
      = true := rfl
  intro h
  rw [h] at hok
  exact Bool.noConfusion hok

/-- C8, amended: non-tensor (non-numeric) input raises the type error
before any validation or filter application; a wrong-dtype tensor is not
detected by `forward`'s own checks. -/
theorem type_error_on_nontensor {α : Type _} (B : Backend α)
    (G : FilterGen α) (cfg : ScatteringConfig) (x : InputTensor α)
    (h : x.isTensor = false) :
    forward B G cfg x = .error .typeErr := by
  rw [forward, if_pos h]

theorem type_error_on_nontensor_witness :
    forward unitBackend unitFilters (build 1 (2, 2) 1 1 false) xNonTensor
      = .error .typeErr :=
  type_error_on_nontensor unitBackend unitFilters
    (build 1 (2, 2) 1 1 false) xNonTensor rfl

/-- C9: channels are written at disjoint precomputed index ranges — 0 for
order 0, then `[1, 1 + L·J)` for the order-1 emissions in order, then the
order-2 range, then orders 3 and 4 — and the written indices are exactly
`0, ..., D - 1`, each exactly once, independent of the processing order of
the branches. -/
theorem channel_index_partition {α : Type _} (B : Backend α)
    (G : FilterGen α) (cfg : ScatteringConfig) (x : α) :
    (forwardWrites B G cfg x).map Prod.fst
        = List.range (output_size cfg.J cfg.L cfg.maxOrder)
      ∧ (List.enumFrom 1 ((order1Items B G cfg.J cfg.L cfg.Mp cfg.Np
            (U0c B cfg.M cfg.N cfg.Mp cfg.Np cfg.prePad x)).map
              Prod.snd)).map Prod.fst
          = List.range' 1 (order1_size cfg.J cfg.L)
      ∧ (List.enumFrom (1 + order1_size cfg.J cfg.L)
            ((if 2 ≤ cfg.maxOrder then
                order2Items B G cfg.J cfg.L cfg.Mp cfg.Np
                  (U0c B cfg.M cfg.N cfg.Mp cfg.Np cfg.prePad x)
              else []).map Prod.snd)).map Prod.fst
          = List.range' (1 + order1_size cfg.J cfg.L)
              (if 2 ≤ cfg.maxOrder then order2_size cfg.J cfg.L else 0) := by
  refine ⟨forwardWrites_map_fst B G cfg x, ?_, ?_⟩
  · rw [List.enumFrom_map_fst, List.length_map, order1Items_length]
  · rw [List.enumFrom_map_fst, List.length_map, ite_list_length,
      order2Items_length]

lemma output_size_congr (J L : ℕ) (mo mo' : ℤ)
    (h2 : (2 ≤ mo) ↔ (2 ≤ mo')) (h3 : (3 ≤ mo) ↔ (3 ≤ mo'))
    (h4 : (4 ≤ mo) ↔ (4 ≤ mo')) :
    output_size J L mo = output_size J L mo' := by
  rw [output_size, output_size, if_congr h2 rfl rfl, if_congr h3 rfl rfl,
    if_congr h4 rfl rfl]

lemma forwardWrites_congr {α : Type _} (B : Backend α) (G : FilterGen α)
    (J : ℕ) (s : ℕ × ℕ) (L : ℕ) (mo mo' : ℤ) (pp : Bool) (x : α)
    (h2 : (2 ≤ mo) ↔ (2 ≤ mo')) (h3 : (3 ≤ mo) ↔ (3 ≤ mo'))
    (h4 : (4 ≤ mo) ↔ (4 ≤ mo')) :
    forwardWrites B G (build J s L mo pp) x
      = forwardWrites B G (build J s L mo' pp) x := by
  rw [forwardWrites, forwardWrites]
  simp only [build_J, build_L, build_maxOrder, build_M, build_N, build_Mp,
    build_Np, build_prePad]
  rw [if_congr h2 rfl rfl, if_congr h3 rfl rfl, if_congr h4 rfl rfl]

lemma forward_mo_eq {α : Type _} (B : Backend α) (G : FilterGen α)
    (J : ℕ) (s : ℕ × ℕ) (L : ℕ) (mo mo' : ℤ) (pp : Bool)
    (x : InputTensor α)
    (h2 : (2 ≤ mo) ↔ (2 ≤ mo')) (h3 : (3 ≤ mo) ↔ (3 ≤ mo'))
    (h4 : (4 ≤ mo) ↔ (4 ≤ mo')) :
    forward B G (build J s L mo pp) x = forward B G (build J s L mo' pp) x := by
  rw [forward, forward]
  simp only [build_J, build_L, build_maxOrder, build_M, build_N, build_Mp,
    build_Np, build_prePad]
  rw [output_size_congr J L mo mo' h2 h3 h4,
    forwardWrites_congr B G J s L mo mo' pp x.data h2 h3 h4,
    show out_spatial (build J s L mo pp) = out_spatial (build J s L mo' pp)
      from rfl]

/-- C10: the constructor accepts any integer `max_order` without
validation; `forward` with `max_order ≥ 4` produces output identical to
`max_order = 4`, and with `max_order ≤ 1` (including 0 and negatives) it
still computes the order-0 and all `L·J` order-1 channels, identically to
`max_order = 1`. -/
theorem max_order_saturation {α : Type _} (B : Backend α) (G : FilterGen α)
    (J L M N : ℕ) (pp : Bool) (mo : ℤ) (x : InputTensor α) :
    (4 ≤ mo → forward B G (build J (M, N) L mo pp) x
        = forward B G (build J (M, N) L 4 pp) x)
    ∧ (mo ≤ 1 → forward B G (build J (M, N) L mo pp) x
        = forward B G (build J (M, N) L 1 pp) x)
    ∧ exceptOk (scattering2D_init J (M, N) L mo pp)
        = exceptOk (scattering2D_init J (M, N) L 2 pp) := by
  refine ⟨fun h => forward_mo_eq B G J (M, N) L mo 4 pp x
      (by omega) (by omega) (by omega),
    fun h => forward_mo_eq B G J (M, N) L mo 1 pp x
      (by omega) (by omega) (by omega), ?_⟩
  rw [scattering2D_init, scattering2D_init]
  by_cases h : 2 ^ J > (M, N).1 ∨ 2 ^ J > (M, N).2
  · rw [if_pos h, if_pos h]
  · rw [if_neg h, if_neg h]
    rfl

theorem max_order_saturation_witness :
    forward unitBackend unitFilters (build 1 (2, 2) 1 7 false) xSmall
        = forward unitBackend unitFilters (build 1 (2, 2) 1 4 false) xSmall
      ∧ forward unitBackend unitFilters (build 1 (2, 2) 1 (-1) false) xSmall
        = forward unitBackend unitFilters (build 1 (2, 2) 1 1 false) xSmall :=
  ⟨(max_order_saturation unitBackend unitFilters 1 1 2 2 false 7 xSmall).1
      (by decide),
   (max_order_saturation unitBackend unitFilters 1 1 2 2 false (-1) xSmall).2.1
      (by decide)⟩

end Scat2D
